import Mathlib

/-!
Shallow embedding of `sql/sql_udf.cc` (user-defined function subsystem of the
MySQL server): the UDF descriptor (`udf_func`), the symbol resolver
(`init_syms`), the registry hash (`udf_hash` with its reader/writer-lock
serialized operations `find_udf`, `free_udf`, `udf_hash_delete`, `add_udf`,
`find_udf_dl`), the transactional glue (`udf_end_transaction`) and the DDL
entry points (`mysql_create_function`, `mysql_drop_function`, `udf_init`).

Modelling conventions:
* The single process-wide rwlock `THR_LOCK_udf` serializes every registry
  mutation, so the concurrent system is embedded as sequential state-passing
  functions on a `RegState`.
* C pointers to `udf_func` objects become indices into an arena
  (`RegState.descs`); the hash maps keys to arena indices, mirroring
  `collation_unordered_map<std::string, udf_func*>`.
* `dlopen`/`dlclose` handles become `Nat` ids allocated from
  `RegState.nextHandle`; `RegState.closedLog` records each `dlclose` call so
  close-exactly-once properties are observable.  A library on disk is an
  association from its path to the list of symbol names it exports
  (`dlsym` succeeds iff the name is in the list).
* `usage_count` is a C `ulong`; `++`/`--` are modelled with explicit
  wrap-around modulo `2^64`.
* External collaborators (catalog table row I/O, binary log, transaction
  engine) are oracles: their success/failure is an input of each operation.
* `DBUG_ASSERT(false)` paths set `RegState.assertFailed`.
-/

set_option autoImplicit false

namespace SqlUdf

/-- `2^64`, the modulus of the C `ulong` fields. -/
def W64 : Nat := 2 ^ 64

/-- C `ulong` pre-decrement `--u` with unsigned wrap-around. -/
def decUlong (u : Nat) : Nat := (u + (W64 - 1)) % W64

/-- C `ulong` post-increment `u++` (the stored value) with wrap-around. -/
def incUlong (u : Nat) : Nat := (u + 1) % W64

/-- `Item_udftype` from `item_func.h`: scalar function or aggregate. -/
inductive Item_udftype where
  | UDFTYPE_FUNCTION
  | UDFTYPE_AGGREGATE
deriving DecidableEq, Repr, Inhabited

/-- `Item_result`: the declared SQL return type of a UDF. -/
inductive Item_result where
  | STRING_RESULT
  | REAL_RESULT
  | INT_RESULT
  | DECIMAL_RESULT
deriving DecidableEq, Repr, Inhabited

/-- `udf_func` from `sql_udf.h`.  The resolved native entry points
(`func`, `func_clear`, `func_add`, `func_init`, `func_deinit`) are modelled
as booleans recording whether `dlsym` produced a non-null pointer;
`dlhandle` is `none` for a null handle. -/
structure udf_func where
  name : String
  returns : Item_result := .INT_RESULT
  dl : String := ""
  dlhandle : Option Nat := none
  func : Bool := false
  func_clear : Bool := false
  func_add : Bool := false
  func_init : Bool := false
  func_deinit : Bool := false
  type : Item_udftype := .UDFTYPE_FUNCTION
  usage_count : Nat := 0
deriving DecidableEq, Repr, Inhabited

/-- A loaded library's exported symbol table; `dlsym` succeeds iff the
requested name is exported. -/
def dlsym (syms : List String) (nm : String) : Bool := syms.contains nm

/-- Result of `init_syms`: `missing` is the `char *` return value (`none`
models returning `0` for success, `some nm` the missing-symbol name),
`warned` records the `LogErr(WARNING_LEVEL, ER_CANT_FIND_DL_ENTRY, ...)`
call on the tolerated suspicious-binding path, `lookups` is the ordered
list of names passed to `dlsym`, and `tmp` the updated descriptor. -/
structure SymResult where
  missing : Option String
  warned : Bool
  lookups : List String
  tmp : udf_func
deriving DecidableEq, Repr

/-- Tail of `init_syms` after the mandatory symbols resolved: look up
`name_deinit` and `name_init`, then apply the anti-spoofing check
(`!tmp->func_init && !tmp->func_deinit && tmp->type != UDFTYPE_AGGREGATE`),
honouring `opt_allow_suspicious_udfs`.  On the hard-failure path the `nm`
buffer last held `name ++ "_init"`, which is what the C code returns. -/
def init_syms_tail (syms : List String) (allow_suspicious : Bool)
    (tmp : udf_func) (lk : List String) : SymResult :=
  let d := dlsym syms (tmp.name ++ "_deinit")
  let i := dlsym syms (tmp.name ++ "_init")
  let tmp2 := { tmp with func_deinit := d, func_init := i }
  let lk2 := lk ++ [tmp.name ++ "_deinit", tmp.name ++ "_init"]
  if !i && !d && tmp.type ≠ .UDFTYPE_AGGREGATE then
    if !allow_suspicious then
      { missing := some (tmp.name ++ "_init"), warned := false,
        lookups := lk2, tmp := tmp2 }
    else
      { missing := none, warned := true, lookups := lk2, tmp := tmp2 }
  else
    { missing := none, warned := false, lookups := lk2, tmp := tmp2 }

/-- `init_syms` from `sql_udf.cc:96`: resolve the mandatory entry point
named exactly `tmp->name`, then for aggregates the mandatory `_clear` and
`_add` suffixed symbols, then the optional `_deinit`/`_init` symbols, and
apply the anti-spoofing policy. -/
def init_syms (syms : List String) (allow_suspicious : Bool)
    (tmp0 : udf_func) : SymResult :=
  if !dlsym syms tmp0.name then
    { missing := some tmp0.name, warned := false,
      lookups := [tmp0.name], tmp := tmp0 }
  else
    let tmp1 := { tmp0 with func := true }
    if tmp1.type = .UDFTYPE_AGGREGATE then
      if !dlsym syms (tmp0.name ++ "_clear") then
        { missing := some (tmp0.name ++ "_clear"), warned := false,
          lookups := [tmp0.name, tmp0.name ++ "_clear"], tmp := tmp1 }
      else
        let tmp2 := { tmp1 with func_clear := true }
        if !dlsym syms (tmp0.name ++ "_add") then
          { missing := some (tmp0.name ++ "_add"), warned := false,
            lookups := [tmp0.name, tmp0.name ++ "_clear",
                        tmp0.name ++ "_add"],
            tmp := tmp2 }
        else
          let tmp3 := { tmp2 with func_add := true }
          init_syms_tail syms allow_suspicious tmp3
            [tmp0.name, tmp0.name ++ "_clear", tmp0.name ++ "_add"]
    else
      init_syms_tail syms allow_suspicious tmp1 [tmp0.name]

/-- The mutable global state of the subsystem: the descriptor arena
(C heap objects, addressed by index), the `udf_hash` map as an association
list from hash key to arena index, the `using_udf_functions` flag, the set
of currently open library handles, the ordered log of `dlclose` calls, the
next fresh handle id, and whether a `DBUG_ASSERT(false)` was reached. -/
structure RegState where
  descs : List udf_func := []
  hash : List (String × Nat) := []
  using_udf_functions : Bool := false
  openHandles : List Nat := []
  closedLog : List Nat := []
  nextHandle : Nat := 0
  assertFailed : Bool := false
deriving DecidableEq, Repr, Inhabited

/-- `udf_hash->find(k)`: first entry with key `k`. -/
def lookupKey : List (String × Nat) → String → Option Nat
  | [], _ => none
  | p :: t, k => if p.1 = k then some p.2 else lookupKey t k

/-- `udf_hash->erase(it)` where `it` was obtained by `find(k)`: remove the
first entry with key `k`. -/
def eraseKey : List (String × Nat) → String → List (String × Nat)
  | [], _ => []
  | p :: t, k => if p.1 = k then t else p :: eraseKey t k

/-- `udf_hash->emplace(k, v)`: inserts only when no entry with key `k`
exists (`std::unordered_map::emplace` does not overwrite). -/
def emplace (h : List (String × Nat)) (k : String) (v : Nat) :
    List (String × Nat) :=
  if (lookupKey h k).isSome then h else h ++ [(k, v)]

/-- Dereference a descriptor pointer (arena index). -/
def getD (s : RegState) (i : Nat) : udf_func := s.descs.getD i default

/-- The shadow key `snprintf(new_name, sizeof(new_name), "*<%p>", udf)`:
the printed pointer is the arena index, so distinct descriptors get
distinct keys. -/
def shadowKey (i : Nat) : String := "*<" ++ toString i ++ ">"

/-- `dlclose(h)`; `dlclose` of a null handle is modelled as a no-op (the
code never reaches it with a null handle on the paths claimed). -/
def dlcloseSt (s : RegState) (h : Option Nat) : RegState :=
  match h with
  | none => s
  | some hh => { s with openHandles := s.openHandles.erase hh,
                        closedLog := s.closedLog ++ [hh] }

/-- `find_udf_dl` from `sql_udf.cc:447`: scan the whole hash for a
descriptor with the same `dl` string and a non-null `dlhandle`, returning
that handle. -/
def find_udf_dl (s : RegState) (dl : String) : Option Nat :=
  match s.hash.find? (fun p =>
      (getD s p.2).dl == dl && (getD s p.2).dlhandle.isSome) with
  | none => none
  | some p => (getD s p.2).dlhandle

/-- `find_udf` from `sql_udf.cc:417`: look the name up in the hash; a found
descriptor with a null `dlhandle` is treated as absent ("could not be
opened"); with `mark_used` (write-locked fix_fields path) bump
`usage_count`, otherwise (read-locked parse path) mutate nothing. -/
def find_udf (s : RegState) (name : String) (mark_used : Bool) :
    Option Nat × RegState :=
  match lookupKey s.hash name with
  | none => (none, s)
  | some i =>
    let u := getD s i
    if u.dlhandle.isNone then (none, s)
    else if mark_used then
      let ds := s.descs.set i { u with usage_count := incUlong u.usage_count }
      (some i, { s with descs := ds })
    else (some i, s)

/-- `udf_hash_delete` from `sql_udf.cc:352`: find the hash entry under
`udf->name` (asserting it exists), decrement `usage_count`; at zero erase
the entry and refresh `using_udf_functions`, otherwise erase it and
re-insert the same descriptor under the unguessable shadow key.  Note the
rename updates only the hash key, never `udf->name` itself. -/
def udf_hash_delete (s : RegState) (udf : Nat) : RegState :=
  let u := getD s udf
  match lookupKey s.hash u.name with
  | none => { s with assertFailed := true }
  | some _ =>
    let u2 := { u with usage_count := decUlong u.usage_count }
    let ds := s.descs.set udf u2
    if u2.usage_count = 0 then
      let h2 := eraseKey s.hash u.name
      { s with descs := ds, hash := h2,
               using_udf_functions := !h2.isEmpty }
    else
      { s with descs := ds,
               hash := emplace (eraseKey s.hash u.name) (shadowKey udf) udf }

/-- `free_udf` from `sql_udf.cc:386`: decrement `usage_count`; at zero,
find the hash entry under `udf->name` (asserting it exists; on failure the
function returns early), erase it, refresh `using_udf_functions`, and
`dlclose` the handle when no registered descriptor still shares the `dl`
path. -/
def free_udf (s : RegState) (udf : Nat) : RegState :=
  let u := getD s udf
  let u2 := { u with usage_count := decUlong u.usage_count }
  let ds := s.descs.set udf u2
  if u2.usage_count = 0 then
    match lookupKey s.hash u.name with
    | none => { s with descs := ds, assertFailed := true }
    | some _ =>
      let h2 := eraseKey s.hash u.name
      let s2 := { s with descs := ds, hash := h2,
                         using_udf_functions := !h2.isEmpty }
      match find_udf_dl s2 u.dl with
      | some _ => s2
      | none => dlcloseSt s2 u2.dlhandle
  else
    { s with descs := ds }

/-- `add_udf` from `sql_udf.cc:467`: allocate a zeroed descriptor on the
memroot, fill in name/returns/dl/type, set `usage_count = 1`, emplace it
into the hash under its name and raise `using_udf_functions`.  Allocation
failure is not modelled (the arena always has room), so the returned
pointer is always valid. -/
def add_udf (s : RegState) (name : String) (returns : Item_result)
    (dl : String) (type : Item_udftype) : Nat × RegState :=
  let tmp : udf_func :=
    { name := name, returns := returns, dl := dl, type := type,
      usage_count := 1 }
  let i := s.descs.length
  (i, { s with descs := s.descs ++ [tmp],
               hash := emplace s.hash name i,
               using_udf_functions := true })

/-- Oracle for the external transaction collaborator:
`rollback_request` is `thd->transaction_rollback_request`, and the two
failure flags are the outcomes of `trans_commit_stmt`/`trans_commit_implicit`
resp. `trans_rollback_stmt`/`trans_rollback_implicit`. -/
structure TransFlags where
  rollback_request : Bool := false
  commit_fails : Bool := false
  rollback_fails : Bool := false
deriving DecidableEq, Repr, Inhabited

/-- `udf_end_transaction` from `sql_udf.cc:507`: on the no-rollback create
path, duplicate the staged descriptor into the registry via `add_udf` and
copy its resolved handle and entry points; on every other path call
`udf_hash_delete` on the passed descriptor.  Then commit or roll back the
external transaction and report failure as
`result || rollback || (insert_udf && u_f == nullptr)`.
Returns `(error, u_f, state)`. -/
def udf_end_transaction (s : RegState) (fl : TransFlags) (rollback : Bool)
    (udf : Nat) (insert_udf : Bool) : Bool × Option Nat × RegState :=
  let rollback_transaction := fl.rollback_request || rollback
  let staged := getD s udf
  let (u_f, s1) :=
    if !rollback_transaction && insert_udf then
      let (i, sa) := add_udf s staged.name staged.returns staged.dl staged.type
      let u_fv := getD sa i
      let copied :=
        { u_fv with
          dlhandle := staged.dlhandle
          func := staged.func
          func_init := staged.func_init
          func_deinit := staged.func_deinit
          func_clear := staged.func_clear
          func_add := staged.func_add }
      (some i, { sa with descs := sa.descs.set i copied })
    else
      (none, udf_hash_delete s udf)
  let rollback_transaction2 :=
    rollback_transaction || (insert_udf && u_f.isNone)
  let result :=
    if rollback_transaction2 then fl.rollback_fails else fl.commit_fails
  (result || rollback || (insert_udf && u_f.isNone), u_f, s1)

/-- Errors surfaced by `mysql_create_function` (`my_error` calls). -/
inductive CreateErr where
  | ER_UDF_NO_PATHS
  | ER_TOO_LONG_IDENT
  | ER_UDF_EXISTS
  | ER_CANT_OPEN_LIBRARY
  | ER_CANT_FIND_DL_ENTRY (sym : String)
  | ER_ERROR_ON_WRITE
deriving DecidableEq, Repr

/-- Inputs of one `CREATE FUNCTION` statement: the parsed `udf_func`
fields, the delegated validation verdicts (`check_valid_path`,
`check_string_char_length`), and the catalog-write / binlog oracle
outcomes (`ha_write_row != 0`, `write_bin_log != 0`). -/
structure CreateIn where
  name : String
  returns : Item_result := .INT_RESULT
  dl : String := ""
  type : Item_udftype := .UDFTYPE_FUNCTION
  path_ok : Bool := true
  name_ok : Bool := true
  write_fails : Bool := false
  binlog_fails : Bool := false
deriving DecidableEq, Repr, Inhabited

/-- The loadable libraries on disk: path to exported symbol list;
a path absent from the list makes `dlopen` fail. -/
def libLookup (libs : List (String × List String)) (p : String) :
    Option (List String) :=
  match libs.find? (fun q => q.1 == p) with
  | none => none
  | some q => some q.2

/-- `mysql_create_function` from `sql_udf.cc:568`: validate path and name,
fail on a duplicate hash entry, share an already-open handle for the same
`dl` via `find_udf_dl` or `dlopen` a new one, resolve symbols with
`init_syms` (closing a newly opened handle on failure), write the catalog
row and the binlog, and finish through `udf_end_transaction` with
`insert_udf = true`; on a reported failure close the newly opened handle.
The staged parser-owned `udf_func` is appended to the arena (it exists as
a heap object either way); only hash membership makes it registered.
Table open/locking glue is elided. -/
def mysql_create_function (s0 : RegState)
    (libs : List (String × List String)) (allow_suspicious : Bool)
    (fl : TransFlags) (c : CreateIn) : Option CreateErr × RegState :=
  if !c.path_ok then (some .ER_UDF_NO_PATHS, s0)
  else if !c.name_ok then (some .ER_TOO_LONG_IDENT, s0)
  else if (lookupKey s0.hash c.name).isSome then (some .ER_UDF_EXISTS, s0)
  else
    let udfId := s0.descs.length
    let staged : udf_func :=
      { name := c.name, returns := c.returns, dl := c.dl, type := c.type }
    let s := { s0 with descs := s0.descs ++ [staged] }
    let dl0 := find_udf_dl s c.dl
    let opened :=
      match dl0 with
      | some h => some (h, false, s)
      | none =>
        match libLookup libs c.dl with
        | none => none
        | some _ =>
          some (s.nextHandle, true,
            { s with nextHandle := s.nextHandle + 1,
                     openHandles := s.openHandles ++ [s.nextHandle] })
    match opened with
    | none => (some .ER_CANT_OPEN_LIBRARY, s)
    | some (h, new_dl, s1) =>
      let syms := (libLookup libs c.dl).getD []
      let withHandle := { staged with dlhandle := some h }
      let r := init_syms syms allow_suspicious withHandle
      match r.missing with
      | some m =>
        let s2 := { s1 with descs := s1.descs.set udfId withHandle }
        let s3 := if new_dl then dlcloseSt s2 (some h) else s2
        (some (.ER_CANT_FIND_DL_ENTRY m), s3)
      | none =>
        let s2 := { s1 with descs := s1.descs.set udfId r.tmp }
        let werr := c.write_fails
        let berr := if werr then true else c.binlog_fails
        let (err, _, s3) :=
          udf_end_transaction s2 fl (fl.rollback_request || berr) udfId true
        if err then
          let s4 := if new_dl then dlcloseSt s3 (some h) else s3
          (some .ER_ERROR_ON_WRITE, s4)
        else (none, s3)

/-- Errors surfaced by `mysql_drop_function`. -/
inductive DropErr where
  | ER_FUNCTION_NOT_DEFINED
  | DROP_FAILED
deriving DecidableEq, Repr

/-- Inputs of one `DROP FUNCTION` statement: the name, whether the catalog
row is found by the index read, and the row-delete / binlog oracle
outcomes. -/
structure DropIn where
  name : String
  row_found : Bool := true
  delete_fails : Bool := false
  binlog_fails : Bool := false
deriving DecidableEq, Repr, Inhabited

/-- `mysql_drop_function` from `sql_udf.cc:696`: find the descriptor in
the hash (else `ER_FUNCTION_NOT_DEFINED`); `error` starts out true and is
cleared only by a successful index read plus row delete; binlog on
success; finish through `udf_end_transaction` with `insert_udf = false`;
finally close the handle when the descriptor has one and no registered
descriptor still shares its `dl` path.  Table open/locking glue is
elided. -/
def mysql_drop_function (s : RegState) (fl : TransFlags) (d : DropIn) :
    Option DropErr × RegState :=
  match lookupKey s.hash d.name with
  | none => (some .ER_FUNCTION_NOT_DEFINED, s)
  | some udfId =>
    let err0 := if d.row_found then d.delete_fails else true
    let err1 := if err0 then true else d.binlog_fails
    let (err2, _, s1) := udf_end_transaction s fl err1 udfId false
    let u := getD s1 udfId
    let s2 :=
      if u.dlhandle.isSome && (find_udf_dl s1 u.dl).isNone then
        dlcloseSt s1 u.dlhandle
      else s1
    ((if err2 then some .DROP_FAILED else none), s2)

/-- One row of `mysql.func` as read by the startup scan, together with the
delegated validation verdicts for its path and name. -/
structure RowIn where
  name : String
  returns : Item_result := .INT_RESULT
  dl : String := ""
  type : Item_udftype := .UDFTYPE_FUNCTION
  path_ok : Bool := true
  name_ok : Bool := true
deriving DecidableEq, Repr, Inhabited

/-- The per-row body of the `udf_init` scan loop (`sql_udf.cc:219`):
skip invalid rows, `add_udf` the descriptor, share or open the library
handle — a failed `dlopen` keeps the descriptor in the hash with a null
handle ("so that we can remove it later") — then resolve symbols, undoing
the insertion with `udf_hash_delete` (and closing a newly opened handle)
when a symbol is missing. -/
def udf_init_row (libs : List (String × List String))
    (allow_suspicious : Bool) (s : RegState) (r : RowIn) : RegState :=
  if !r.path_ok || !r.name_ok then s
  else
    let (udfId, s1) := add_udf s r.name r.returns r.dl r.type
    let tmp := getD s1 udfId
    let opened :=
      match find_udf_dl s1 tmp.dl with
      | some h => some (h, false, s1)
      | none =>
        match libLookup libs tmp.dl with
        | none => none
        | some _ =>
          some (s1.nextHandle, true,
            { s1 with nextHandle := s1.nextHandle + 1,
                      openHandles := s1.openHandles ++ [s1.nextHandle] })
    match opened with
    | none => s1
    | some (h, new_dl, s2) =>
      let withHandle := { tmp with dlhandle := some h }
      let s3 := { s2 with descs := s2.descs.set udfId withHandle }
      let syms := (libLookup libs tmp.dl).getD []
      let r2 := init_syms syms allow_suspicious withHandle
      match r2.missing with
      | some _ =>
        let s4 := udf_hash_delete s3 udfId
        if new_dl then dlcloseSt s4 (some h) else s4
      | none => { s3 with descs := s3.descs.set udfId r2.tmp }

/-- `udf_init` from `sql_udf.cc:168`: starting from the empty registry,
fold the scan-loop body over the catalog rows; per-row failures never
abort the scan. -/
def udf_init (libs : List (String × List String)) (allow_suspicious : Bool)
    (rows : List RowIn) : RegState :=
  rows.foldl (udf_init_row libs allow_suspicious) {}

/-! ### Basic lemmas about the modelled primitives -/

theorem decUlong_of_pos {c : Nat} (h1 : 1 ≤ c) (h2 : c < W64) :
    decUlong c = c - 1 := by
  unfold decUlong
  have h3 : c + (W64 - 1) = (c - 1) + W64 := by omega
  rw [h3, Nat.add_mod_right, Nat.mod_eq_of_lt (by omega)]

theorem incUlong_of_small {c : Nat} (h : c + 1 < W64) :
    incUlong c = c + 1 := by
  unfold incUlong
  exact Nat.mod_eq_of_lt h

theorem getD_set_self {α : Type} (d : α) :
    ∀ (l : List α) (i : Nat) (u : α), i < l.length →
      (l.set i u).getD i d = u
  | [], i, u, h => absurd h (by simp)
  | _ :: t, 0, u, _ => rfl
  | _ :: t, i + 1, u, h =>
    getD_set_self d t i u (Nat.lt_of_succ_lt_succ h)

theorem getD_set_ne {α : Type} (d : α) :
    ∀ (l : List α) (i j : Nat) (u : α), j ≠ i →
      (l.set i u).getD j d = l.getD j d
  | [], _, _, _, _ => rfl
  | _ :: t, 0, 0, u, h => absurd rfl h
  | _ :: t, 0, j + 1, u, _ => rfl
  | _ :: t, i + 1, 0, u, _ => rfl
  | _ :: t, i + 1, j + 1, u, h =>
    getD_set_ne d t i j u (fun e => h (by rw [e]))

theorem getD_append_lt {α : Type} (d : α) :
    ∀ (l m : List α) (j : Nat), j < l.length →
      (l ++ m).getD j d = l.getD j d
  | [], _, j, h => absurd h (by simp)
  | _ :: t, m, 0, _ => rfl
  | _ :: t, m, j + 1, h =>
    getD_append_lt d t m j (Nat.lt_of_succ_lt_succ h)

theorem getD_append_self {α : Type} (d : α) :
    ∀ (l : List α) (u : α), (l ++ [u]).getD l.length d = u
  | [], _ => rfl
  | _ :: t, u => getD_append_self d t u

/-- Membership characterization of `lookupKey`. -/
theorem lookupKey_eq_none_iff :
    ∀ (h : List (String × Nat)) (k : String),
      lookupKey h k = none ↔ k ∉ h.map Prod.fst
  | [], k => by simp [lookupKey]
  | p :: t, k => by
    by_cases e : p.1 = k
    · simp [lookupKey, e]
    · simp only [lookupKey, if_neg e, List.map_cons, List.mem_cons]
      rw [lookupKey_eq_none_iff t k]
      constructor
      · rintro hn (rfl | hm)
        · exact e rfl
        · exact hn hm
      · intro hn hm
        exact hn (Or.inr hm)

theorem lookupKey_append_of_none {h1 : List (String × Nat)} {k : String}
    (h2 : List (String × Nat)) (hn : lookupKey h1 k = none) :
    lookupKey (h1 ++ h2) k = lookupKey h2 k := by
  induction h1 with
  | nil => rfl
  | cons p t ih =>
    by_cases e : p.1 = k
    · simp [lookupKey, e] at hn
    · simp only [lookupKey, if_neg e] at hn ⊢
      exact ih hn

theorem keys_eraseKey_sublist :
    ∀ (h : List (String × Nat)) (k x : String),
      x ∈ (eraseKey h k).map Prod.fst → x ∈ h.map Prod.fst
  | [], _, _, hm => hm
  | p :: t, k, x, hm => by
    by_cases e : p.1 = k
    · simp only [eraseKey, if_pos e] at hm
      exact List.mem_cons_of_mem _ hm
    · simp only [eraseKey, if_neg e, List.map_cons, List.mem_cons] at hm ⊢
      rcases hm with rfl | hm
      · exact Or.inl rfl
      · exact Or.inr (keys_eraseKey_sublist t k x hm)

theorem lookupKey_eraseKey_self :
    ∀ (h : List (String × Nat)) (k : String),
      (h.map Prod.fst).Nodup → lookupKey (eraseKey h k) k = none
  | [], _, _ => rfl
  | p :: t, k, hnd => by
    simp only [List.map_cons, List.nodup_cons] at hnd
    by_cases e : p.1 = k
    · simp only [eraseKey, if_pos e]
      rw [lookupKey_eq_none_iff]
      rw [e] at hnd
      exact hnd.1
    · simp only [eraseKey, if_neg e, lookupKey, if_neg e]
      exact lookupKey_eraseKey_self t k hnd.2

theorem lookupKey_eraseKey_ne {k k2 : String}
    (h : List (String × Nat)) (hne : k2 ≠ k) :
    lookupKey (eraseKey h k) k2 = lookupKey h k2 := by
  induction h with
  | nil => rfl
  | cons p t ih =>
    by_cases e : p.1 = k
    · simp only [eraseKey, if_pos e, lookupKey]
      rw [if_neg (by rw [e]; exact fun h2 => hne h2.symm)]
    · simp only [eraseKey, if_neg e, lookupKey]
      by_cases e2 : p.1 = k2
      · simp [e2]
      · simp only [if_neg e2]
        exact ih

theorem lookupKey_append_singleton_ne {k k2 : String} (v : Nat)
    (hne : k2 ≠ k) :
    ∀ h : List (String × Nat),
      lookupKey (h ++ [(k, v)]) k2 = lookupKey h k2
  | [] => by
    simp only [List.nil_append, lookupKey]
    rw [if_neg (fun e => hne e.symm)]
  | p :: t => by
    simp only [List.cons_append, lookupKey]
    by_cases e : p.1 = k2
    · simp [e]
    · simp only [if_neg e]
      exact lookupKey_append_singleton_ne v hne t

theorem lookupKey_emplace_ne {k k2 : String}
    (h : List (String × Nat)) (v : Nat) (hne : k2 ≠ k) :
    lookupKey (emplace h k v) k2 = lookupKey h k2 := by
  unfold emplace
  by_cases hp : (lookupKey h k).isSome
  · rw [if_pos hp]
  · rw [if_neg hp]
    exact lookupKey_append_singleton_ne v hne h

theorem lookupKey_emplace_self {h : List (String × Nat)} {k : String}
    (v : Nat) (hn : lookupKey h k = none) :
    lookupKey (emplace h k v) k = some v := by
  unfold emplace
  rw [if_neg (by simp [hn])]
  rw [lookupKey_append_of_none _ hn]
  simp [lookupKey]

theorem keysNodup_eraseKey {h : List (String × Nat)} (k : String)
    (hnd : (h.map Prod.fst).Nodup) :
    ((eraseKey h k).map Prod.fst).Nodup := by
  induction h with
  | nil => exact hnd
  | cons p t ih =>
    simp only [List.map_cons, List.nodup_cons] at hnd
    by_cases e : p.1 = k
    · simpa only [eraseKey, if_pos e] using hnd.2
    · simp only [eraseKey, if_neg e, List.map_cons, List.nodup_cons]
      exact ⟨fun hm => hnd.1 (keys_eraseKey_sublist t k p.1 hm), ih hnd.2⟩

theorem keysNodup_emplace {h : List (String × Nat)} (k : String) (v : Nat)
    (hnd : (h.map Prod.fst).Nodup) :
    ((emplace h k v).map Prod.fst).Nodup := by
  unfold emplace
  by_cases hp : (lookupKey h k).isSome
  · rwa [if_pos hp]
  · rw [if_neg hp, List.map_append]
    have hk : k ∉ h.map Prod.fst := by
      rw [← lookupKey_eq_none_iff]
      cases he : lookupKey h k
      · rfl
      · simp [he] at hp
    simp only [List.map_cons, List.map_nil]
    rw [List.nodup_append]
    exact ⟨hnd, List.nodup_singleton k,
      by simp only [List.disjoint_singleton]; exact hk⟩

/-- The shadow key always starts with the character `*`. -/
theorem shadowKey_head (i : Nat) : (shadowKey i).data.head? = some '*' := by
  unfold shadowKey
  rw [String.data_append, String.data_append]
  rfl

theorem shadowKey_ne {f : String} (i : Nat)
    (hf : f.data.head? ≠ some '*') : shadowKey i ≠ f := by
  intro e
  exact hf (by rw [← e]; exact shadowKey_head i)

/-! ### Claim C1 -/

/-- One library `L` exporting `f` and `f_init`. -/
def C1libs : List (String × List String) := [("L", ["f", "f_init"])]

/-- Boot with a single catalog row for `f`. -/
def C1boot : RegState := udf_init C1libs false [{ name := "f", dl := "L" }]

/-- A running thread acquires `f` (`usage_count` becomes 2). -/
def C1held : RegState := (find_udf C1boot "f" true).2

/-- `DROP FUNCTION f` succeeds while the acquirer is still active, so
`udf_hash_delete` shadow-renames the descriptor. -/
def C1dropped : RegState := (mysql_drop_function C1held {} { name := "f" }).2

/-- The in-flight holder finishes and calls `free_udf`. -/
def C1released : RegState := free_udf C1dropped 0

/-- **C1**: after a drop-while-in-use shadow-renamed the descriptor of `f`,
the last holder's `free_udf` decrements `usage_count` to 0 — but, contrary
to the claim, the descriptor is *not* physically removed (it stays in the
hash under the shadow key) and the library handle is *not* closed: the
lookup by `udf->name` misses the shadow-renamed hash entry, hitting the
code's own `DBUG_ASSERT(false)`. -/
theorem C1_release_after_shadow_never_removes :
    (getD C1dropped 0).usage_count = 1 ∧
    lookupKey C1dropped.hash (shadowKey 0) = some 0 ∧
    (getD C1released 0).usage_count = 0 ∧
    C1released.assertFailed = true ∧
    lookupKey C1released.hash (shadowKey 0) = some 0 ∧
    C1released.closedLog = [] ∧
    C1released.openHandles = [0] := by decide

/-! ### Claim C3 -/

/-- Boot with a single catalog row for `f` backed by library `L`. -/
def C3boot : RegState :=
  udf_init [("L", ["f", "f_init"])] false [{ name := "f", dl := "L" }]

/-- `DROP FUNCTION f` whose catalog row delete fails
(`ha_delete_row` returns an error). -/
def C3drop : Option DropErr × RegState :=
  mysql_drop_function C3boot {} { name := "f", delete_fails := true }

/-- **C3**: a drop whose catalog delete fails reports the failure (and the
external transaction is rolled back), but — contrary to the claim — the
in-memory registry is *not* left untouched: the bare `else` in
`udf_end_transaction` still calls `udf_hash_delete`, so the descriptor of
`f` is erased from the hash and its library closed. -/
theorem C3_failed_drop_still_erases_registry :
    C3drop.1 = some .DROP_FAILED ∧
    lookupKey C3boot.hash "f" = some 0 ∧
    lookupKey C3drop.2.hash "f" = none ∧
    C3drop.2.closedLog = [0] := by decide

/-! ### Claim C4 -/

/-- `CREATE FUNCTION g SONAME "L"` where every step succeeds except the
final transaction commit (`trans_commit_stmt` fails). -/
def C4create : Option CreateErr × RegState :=
  mysql_create_function {} [("L", ["g", "g_init"])] false
    { commit_fails := true } { name := "g", dl := "L" }

/-- **C4**: a create whose transaction commit fails reports the failure,
but — contrary to the claim — the registry mutation is *not* undone: the
entry for `g` staged by `add_udf` (which runs before the commit) stays in
the hash, while the library handle it references is closed. -/
theorem C4_commit_failure_leaves_registry_entry :
    C4create.1 = some .ER_ERROR_ON_WRITE ∧
    lookupKey C4create.2.hash "g" = some 1 ∧
    (getD C4create.2 1).dlhandle = some 0 ∧
    C4create.2.closedLog = [0] := by decide

/-! ### Claim C5 -/

/-- One library `L` exporting the symbols for two functions `a` and `b`. -/
def C5libs : List (String × List String) :=
  [("L", ["a", "a_init", "b", "b_init"])]

/-- Create `a` from `L`; the commit fails, so handle 0 is closed while the
staged registry entry for `a` keeps referencing it. -/
def C5afterA : RegState :=
  (mysql_create_function {} C5libs false { commit_fails := true }
    { name := "a", dl := "L" }).2

/-- Create `b` from the same `L`; `find_udf_dl` dedups by path, so `b`
shares (the already closed) handle 0. -/
def C5afterB : RegState :=
  (mysql_create_function C5afterA C5libs false {} { name := "b", dl := "L" }).2

/-- Drop `a` (succeeds; `b` still references the path, so no close). -/
def C5afterDropA : RegState :=
  (mysql_drop_function C5afterB {} { name := "a" }).2

/-- Drop `b` (succeeds; last referent gone, so `dlclose` runs again). -/
def C5afterDropB : RegState :=
  (mysql_drop_function C5afterDropA {} { name := "b" }).2

/-- **C5**: the two descriptors for `a` and `b` registered with the equal
library path `L` do share one handle, but — contrary to the claim — that
handle is *not* closed exactly once after the last referencing descriptor
is removed: it is closed while both descriptors are still registered
(create-commit failure), and closed a second time when the last descriptor
is dropped (`closedLog = [0, 0]`). -/
theorem C5_shared_handle_closed_twice :
    (getD C5afterB 1).name = "a" ∧ (getD C5afterB 3).name = "b" ∧
    (getD C5afterB 1).dl = (getD C5afterB 3).dl ∧
    (getD C5afterB 1).dlhandle = some 0 ∧
    (getD C5afterB 3).dlhandle = some 0 ∧
    lookupKey C5afterB.hash "a" = some 1 ∧
    lookupKey C5afterB.hash "b" = some 3 ∧
    C5afterB.closedLog = [0] ∧
    C5afterDropB.closedLog = [0, 0] := by decide

/-! ### Claim C2 -/

/-- **C2**: for every registered name `f` (bound in the hash to descriptor
`i`, whose `name` field is `f`, with at least one in-flight holder beside
the registry's own hold, i.e. `usage_count ≥ 2`), once `udf_hash_delete`
— the `mark_for_removal` step a successful drop performs — has run, any
subsequent `find_udf`, acquiring (`mark_used = true`) or read-only,
returns nothing for `f`; meanwhile the prior holder's descriptor is still
valid: its `dlhandle` is unchanged, its `usage_count` dropped by exactly
one and is still positive, and no library handle was closed. -/
theorem C2_after_removal_lookups_miss_but_holder_survives
    (s : RegState) (f : String) (i : Nat)
    (hnd : (s.hash.map Prod.fst).Nodup)
    (hf : lookupKey s.hash f = some i)
    (hname : (getD s i).name = f)
    (hc2 : 2 ≤ (getD s i).usage_count)
    (hcw : (getD s i).usage_count < W64)
    (hstar : f.data.head? ≠ some '*')
    (hi : i < s.descs.length) :
    (find_udf (udf_hash_delete s i) f true).1 = none ∧
    (find_udf (udf_hash_delete s i) f false).1 = none ∧
    (getD (udf_hash_delete s i) i).dlhandle = (getD s i).dlhandle ∧
    (getD (udf_hash_delete s i) i).usage_count
      = (getD s i).usage_count - 1 ∧
    1 ≤ (getD (udf_hash_delete s i) i).usage_count ∧
    (udf_hash_delete s i).closedLog = s.closedLog ∧
    (udf_hash_delete s i).openHandles = s.openHandles := by
  have hdec : decUlong (getD s i).usage_count = (getD s i).usage_count - 1 :=
    decUlong_of_pos (by omega) hcw
  have hne0 : ¬ ((getD s i).usage_count - 1 = 0) := by omega
  have hred : udf_hash_delete s i =
      { s with
        descs := s.descs.set i
          { getD s i with usage_count := (getD s i).usage_count - 1 },
        hash := emplace (eraseKey s.hash f) (shadowKey i) i } := by
    simp only [udf_hash_delete, hname, hf, hdec]
    rw [if_neg hne0]
  have hlook2 : lookupKey (udf_hash_delete s i).hash f = none := by
    rw [hred]
    show lookupKey (emplace (eraseKey s.hash f) (shadowKey i) i) f = none
    rw [lookupKey_emplace_ne _ _ (fun e => shadowKey_ne i hstar e.symm)]
    exact lookupKey_eraseKey_self s.hash f hnd
  have hget : getD (udf_hash_delete s i) i =
      { getD s i with usage_count := (getD s i).usage_count - 1 } := by
    rw [hred]
    show (s.descs.set i _).getD i default = _
    exact getD_set_self default s.descs i _ hi
  refine ⟨?_, ?_, ?_, ?_, ?_, ?_, ?_⟩
  · simp only [find_udf, hlook2]
  · simp only [find_udf, hlook2]
  · simp only [hget]
  · simp only [hget]
  · simp only [hget]
    omega
  · simp only [hred]
  · simp only [hred]

/-- Concrete registry for the C2 witness: one descriptor for `f`, held by
the registry and by one in-flight caller. -/
def C2state : RegState :=
  { descs := [{ name := "f", dl := "L", dlhandle := some 0,
                usage_count := 2 }],
    hash := [("f", 0)], using_udf_functions := true,
    openHandles := [0], nextHandle := 1 }

/-- Witness for C2 at the concrete registry `C2state`. -/
theorem C2_witness :
    ((C2state.hash.map Prod.fst).Nodup ∧
     lookupKey C2state.hash "f" = some 0 ∧
     (getD C2state 0).name = "f" ∧
     2 ≤ (getD C2state 0).usage_count ∧
     (getD C2state 0).usage_count < W64 ∧
     ("f" : String).data.head? ≠ some '*' ∧
     0 < C2state.descs.length) ∧
    ((find_udf (udf_hash_delete C2state 0) "f" true).1 = none ∧
     (find_udf (udf_hash_delete C2state 0) "f" false).1 = none ∧
     (getD (udf_hash_delete C2state 0) 0).dlhandle = (getD C2state 0).dlhandle ∧
     (getD (udf_hash_delete C2state 0) 0).usage_count
       = (getD C2state 0).usage_count - 1 ∧
     1 ≤ (getD (udf_hash_delete C2state 0) 0).usage_count ∧
     (udf_hash_delete C2state 0).closedLog = C2state.closedLog ∧
     (udf_hash_delete C2state 0).openHandles = C2state.openHandles) :=
  ⟨⟨by decide, by decide, by decide, by decide, by decide, by decide,
    by decide⟩,
   C2_after_removal_lookups_miss_but_holder_survives C2state "f" 0
     (by decide) (by decide) (by decide) (by decide) (by decide) (by decide)
     (by decide)⟩

/-! ### Claim C6 -/

/-- **C6**: `find_udf` with `mark_used = true` (lookup-and-acquire) returns
a descriptor exactly when the name is bound in the hash and the bound
descriptor's library handle is non-null; it then returns that registered
descriptor and bumps its `usage_count` by exactly one, touching no other
descriptor; when it returns nothing it changes nothing.  With
`mark_used = false` (read-only lookup) the verdict is identical and the
state is never changed.  (The bound hypothesis keeps the arena index valid
and the `ulong` increment below its wrap-around.) -/
theorem C6_find_udf_contract (s : RegState) (name : String)
    (hb : ∀ j, lookupKey s.hash name = some j →
      j < s.descs.length ∧ (getD s j).usage_count + 1 < W64) :
    (find_udf s name false).2 = s ∧
    (find_udf s name true).1 = (find_udf s name false).1 ∧
    ((find_udf s name true).1.isSome ↔
      ∃ i, lookupKey s.hash name = some i ∧ (getD s i).dlhandle.isSome) ∧
    (∀ i, (find_udf s name true).1 = some i →
      lookupKey s.hash name = some i ∧
      (getD (find_udf s name true).2 i).usage_count
        = (getD s i).usage_count + 1 ∧
      (getD (find_udf s name true).2 i).dlhandle = (getD s i).dlhandle ∧
      ∀ j, j ≠ i → getD (find_udf s name true).2 j = getD s j) ∧
    ((find_udf s name true).1 = none → (find_udf s name true).2 = s) := by
  cases hl : lookupKey s.hash name with
  | none =>
    refine ⟨?_, ?_, ?_, ?_, ?_⟩
    · simp [find_udf, hl]
    · simp [find_udf, hl]
    · simp [find_udf, hl]
    · simp [find_udf, hl]
    · simp [find_udf, hl]
  | some i =>
    obtain ⟨hlen, hcnt⟩ := hb i hl
    by_cases hh : (getD s i).dlhandle.isNone
    · rw [Option.isNone_iff_eq_none] at hh
      refine ⟨?_, ?_, ?_, ?_, ?_⟩
      · simp [find_udf, hl, hh]
      · simp [find_udf, hl, hh]
      · simp [find_udf, hl, hh]
      · simp [find_udf, hl, hh]
      · simp [find_udf, hl, hh]
    · have hinc : incUlong (getD s i).usage_count
          = (getD s i).usage_count + 1 := incUlong_of_small hcnt
      have hhs : (getD s i).dlhandle.isSome := by
        cases hd : (getD s i).dlhandle
        · rw [hd] at hh
          simp at hh
        · simp
      have hfu : find_udf s name true =
          (some i,
            { s with
              descs := s.descs.set i
                ({ getD s i with
                   usage_count := incUlong (getD s i).usage_count }) }) := by
        simp [find_udf, hl, if_neg hh]
        intro e
        rw [e] at hhs
        simp at hhs
      have hfr : find_udf s name false = (some i, s) := by
        simp [find_udf, hl, if_neg hh]
        intro e
        rw [e] at hhs
        simp at hhs
      refine ⟨?_, ?_, ?_, ?_, ?_⟩
      · rw [hfr]
      · rw [hfu, hfr]
      · rw [hfu]
        simp only [Option.isSome_some, true_iff]
        exact ⟨i, rfl, hhs⟩
      · intro j hj
        rw [hfu] at hj
        simp only [Option.some.injEq] at hj
        subst hj
        refine ⟨rfl, ?_, ?_, ?_⟩
        · rw [hfu]
          show ((s.descs.set i _).getD i default).usage_count = _
          rw [getD_set_self default s.descs i _ hlen]
          exact hinc
        · rw [hfu]
          show ((s.descs.set i _).getD i default).dlhandle = _
          rw [getD_set_self default s.descs i _ hlen]
        · intro k hk
          rw [hfu]
          show (s.descs.set i _).getD k default = s.descs.getD k default
          exact getD_set_ne default s.descs i k _ hk
      · intro he
        rw [hfu] at he
        simp at he

/-- Concrete registry for the C6 witness: `f` is usable, `h` was
registered but its library failed to load (null handle), `g` is absent. -/
def C6state : RegState :=
  { descs := [{ name := "f", dl := "L", dlhandle := some 0,
                usage_count := 1 },
              { name := "h", dl := "M", dlhandle := none,
                usage_count := 1 }],
    hash := [("f", 0), ("h", 1)], using_udf_functions := true,
    openHandles := [0], nextHandle := 1 }

/-- Witness for C6 at the concrete registry `C6state` (name `f`). -/
theorem C6_witness :
    (∀ j, lookupKey C6state.hash "f" = some j →
      j < C6state.descs.length ∧ (getD C6state j).usage_count + 1 < W64) ∧
    ((find_udf C6state "f" false).2 = C6state ∧
     (find_udf C6state "f" true).1 = (find_udf C6state "f" false).1 ∧
     ((find_udf C6state "f" true).1.isSome ↔
       ∃ i, lookupKey C6state.hash "f" = some i ∧
         (getD C6state i).dlhandle.isSome) ∧
     (∀ i, (find_udf C6state "f" true).1 = some i →
       lookupKey C6state.hash "f" = some i ∧
       (getD (find_udf C6state "f" true).2 i).usage_count
         = (getD C6state i).usage_count + 1 ∧
       (getD (find_udf C6state "f" true).2 i).dlhandle
         = (getD C6state i).dlhandle ∧
       ∀ j, j ≠ i → getD (find_udf C6state "f" true).2 j = getD C6state j) ∧
     ((find_udf C6state "f" true).1 = none →
       (find_udf C6state "f" true).2 = C6state)) :=
  ⟨by decide, C6_find_udf_contract C6state "f" (by decide)⟩

/-! ### Claim C7 -/

/-- Helper: whenever `mysql_create_function` reports a missing symbol
(`ER_CANT_FIND_DL_ENTRY`), the registry hash is left exactly as it was. -/
theorem create_missing_symbol_hash_unchanged (s0 : RegState)
    (libs : List (String × List String)) (allow : Bool) (fl : TransFlags)
    (c : CreateIn) (m : String)
    (hres : (mysql_create_function s0 libs allow fl c).1
      = some (.ER_CANT_FIND_DL_ENTRY m)) :
    (mysql_create_function s0 libs allow fl c).2.hash = s0.hash := by
  rcases hO : mysql_create_function s0 libs allow fl c with ⟨res, st⟩
  rw [hO] at hres
  simp only at hres
  subst hres
  simp only [mysql_create_function] at hO
  split at hO
  · simp at hO
  · split at hO
    · simp at hO
    · split at hO
      · simp at hO
      · split at hO
        · simp at hO
        · rename_i h new_dl s1 hopen
          have hs1 : s1.hash = s0.hash := by
            split at hopen
            · simp only [Option.some.injEq, Prod.mk.injEq] at hopen
              obtain ⟨-, -, e3⟩ := hopen
              rw [← e3]
            · split at hopen
              · simp at hopen
              · simp only [Option.some.injEq, Prod.mk.injEq] at hopen
                obtain ⟨-, -, e3⟩ := hopen
                rw [← e3]
          split at hO
          · rw [Prod.mk.injEq] at hO
            obtain ⟨h1, h2⟩ := hO
            rw [← h2]
            split
            · simp [dlcloseSt, hs1]
            · simp [hs1]
          · split at hO <;> split at hO <;> simp at hO

/-- **C7**: `init_syms` looks up the mandatory main entry point (named
exactly as the declared function) first; if it is absent, resolution fails
naming that symbol and that was the only `dlsym` performed.  For
`UDFTYPE_AGGREGATE`, absence of the `_clear` suffixed symbol fails naming
`name_clear`, absence of the `_add` symbol (with `_clear` present) fails
naming `name_add`.  And any `CREATE FUNCTION` that fails with a
missing-symbol error leaves the registry hash unchanged. -/
theorem C7_symbol_resolution_order (syms : List String) (allow : Bool)
    (u : udf_func) :
    (dlsym syms u.name = false →
      init_syms syms allow u =
        { missing := some u.name, warned := false,
          lookups := [u.name], tmp := u }) ∧
    (u.type = .UDFTYPE_AGGREGATE → dlsym syms u.name = true →
      dlsym syms (u.name ++ "_clear") = false →
      init_syms syms allow u =
        { missing := some (u.name ++ "_clear"), warned := false,
          lookups := [u.name, u.name ++ "_clear"],
          tmp := { u with func := true } }) ∧
    (u.type = .UDFTYPE_AGGREGATE → dlsym syms u.name = true →
      dlsym syms (u.name ++ "_clear") = true →
      dlsym syms (u.name ++ "_add") = false →
      init_syms syms allow u =
        { missing := some (u.name ++ "_add"), warned := false,
          lookups := [u.name, u.name ++ "_clear", u.name ++ "_add"],
          tmp := { u with func := true, func_clear := true } }) ∧
    (∀ (s0 : RegState) (libs : List (String × List String))
        (fl : TransFlags) (c : CreateIn) (m : String),
      (mysql_create_function s0 libs allow fl c).1
          = some (.ER_CANT_FIND_DL_ENTRY m) →
      (mysql_create_function s0 libs allow fl c).2.hash = s0.hash) := by
  refine ⟨?_, ?_, ?_, ?_⟩
  · intro hm
    simp [init_syms, hm]
  · intro ht hm hc
    simp [init_syms, hm, ht, hc]
  · intro ht hm hc ha
    simp [init_syms, hm, ht, hc, ha]
  · intro s0 libs fl c m hres
    exact create_missing_symbol_hash_unchanged s0 libs allow fl c m hres

/-- Witness for C7: a scalar whose main symbol is absent, an aggregate
lacking `_add`, and a concrete create of that aggregate leaving the empty
registry empty. -/
theorem C7_witness :
    (init_syms ["y"] false { name := "x" }).missing = some "x" ∧
    (init_syms ["y"] false { name := "x" }).lookups = ["x"] ∧
    (init_syms ["a", "a_clear"] false
      { name := "a", type := .UDFTYPE_AGGREGATE }).missing = some "a_add" ∧
    (mysql_create_function {} [("A", ["a", "a_clear"])] false {}
      { name := "a", dl := "A", type := .UDFTYPE_AGGREGATE }).2.hash
        = ({} : RegState).hash :=
  ⟨by
    rw [(C7_symbol_resolution_order ["y"] false { name := "x" }).1
      (by decide)],
   by
    rw [(C7_symbol_resolution_order ["y"] false { name := "x" }).1
      (by decide)],
   by
    rw [(C7_symbol_resolution_order ["a", "a_clear"] false
      { name := "a", type := .UDFTYPE_AGGREGATE }).2.2.1
      (by decide) (by decide) (by decide) (by decide)]
    rfl,
   (C7_symbol_resolution_order ["a", "a_clear"] false
      { name := "a", type := .UDFTYPE_AGGREGATE }).2.2.2
      {} [("A", ["a", "a_clear"])] {}
      { name := "a", dl := "A", type := .UDFTYPE_AGGREGATE } "a_add"
      (by decide)⟩

/-! ### Claim C8 -/

/-- **C8**: for a non-aggregate function whose library resolves the main
symbol but neither `name_init` nor `name_deinit`, symbol resolution fails
when `opt_allow_suspicious_udfs` is false and succeeds with a logged
warning when it is true; for `UDFTYPE_AGGREGATE` descriptors the
anti-spoofing check is never applied: no warning is ever logged and the
verdict does not depend on the flag. -/
theorem C8_suspicious_binding_policy (syms : List String) (u : udf_func)
    (ht : u.type ≠ .UDFTYPE_AGGREGATE)
    (hm : dlsym syms u.name = true)
    (hi : dlsym syms (u.name ++ "_init") = false)
    (hd : dlsym syms (u.name ++ "_deinit") = false) :
    ((init_syms syms false u).missing = some (u.name ++ "_init") ∧
     (init_syms syms false u).warned = false) ∧
    ((init_syms syms true u).missing = none ∧
     (init_syms syms true u).warned = true) ∧
    (∀ (syms2 : List String) (allow : Bool) (v : udf_func),
      v.type = .UDFTYPE_AGGREGATE →
      (init_syms syms2 allow v).warned = false ∧
      (init_syms syms2 allow v).missing
        = (init_syms syms2 true v).missing) := by
  have hagg : ¬ (u.type = .UDFTYPE_AGGREGATE) := ht
  refine ⟨?_, ?_, ?_⟩
  · constructor <;>
      simp [init_syms, init_syms_tail, hm, hi, hd, hagg]
  · constructor <;>
      simp [init_syms, init_syms_tail, hm, hi, hd, hagg]
  · intro syms2 allow v hv
    cases hmv : dlsym syms2 v.name with
    | false => simp [init_syms, hmv]
    | true =>
      cases hcv : dlsym syms2 (v.name ++ "_clear") with
      | false => simp [init_syms, hmv, hv, hcv]
      | true =>
        cases hav : dlsym syms2 (v.name ++ "_add") with
        | false => simp [init_syms, hmv, hv, hcv, hav]
        | true => simp [init_syms, init_syms_tail, hmv, hv, hcv, hav]

/-- Witness for C8: a library exporting only `myfunc`, plus an aggregate
with all mandatory symbols and no auxiliary ones. -/
theorem C8_witness :
    (({ name := "myfunc" } : udf_func).type ≠ .UDFTYPE_AGGREGATE ∧
     dlsym ["myfunc"] "myfunc" = true ∧
     dlsym ["myfunc"] "myfunc_init" = false ∧
     dlsym ["myfunc"] "myfunc_deinit" = false) ∧
    ((init_syms ["myfunc"] false { name := "myfunc" }).missing
        = some "myfunc_init" ∧
     (init_syms ["myfunc"] true { name := "myfunc" }).missing = none ∧
     (init_syms ["myfunc"] true { name := "myfunc" }).warned = true ∧
     (init_syms ["agg", "agg_clear", "agg_add"] false
        { name := "agg", type := .UDFTYPE_AGGREGATE }).warned = false) :=
  ⟨⟨by decide, by decide, by decide, by decide⟩,
   ⟨(C8_suspicious_binding_policy ["myfunc"] { name := "myfunc" }
      (by decide) (by decide) (by decide) (by decide)).1.1,
    (C8_suspicious_binding_policy ["myfunc"] { name := "myfunc" }
      (by decide) (by decide) (by decide) (by decide)).2.1.1,
    (C8_suspicious_binding_policy ["myfunc"] { name := "myfunc" }
      (by decide) (by decide) (by decide) (by decide)).2.1.2,
    ((C8_suspicious_binding_policy ["myfunc"] { name := "myfunc" }
      (by decide) (by decide) (by decide) (by decide)).2.2
      ["agg", "agg_clear", "agg_add"] false
      { name := "agg", type := .UDFTYPE_AGGREGATE } (by decide)).1⟩⟩

/-! ### Claim C9 -/

/-- **C9**: the registry-insert step of a create fails with the
duplicate-name error `ER_UDF_EXISTS` (leaving the state untouched) when
the name is already bound in the hash — Shadowed descriptors live under
their shadow key, so only a Visible descriptor blocks — and otherwise
`add_udf` registers the descriptor under its own name (i.e. Visible) with
`usage_count = 1`. -/
theorem C9_insert_semantics (s : RegState)
    (libs : List (String × List String)) (allow : Bool) (fl : TransFlags)
    (c : CreateIn) (hp : c.path_ok = true) (hn : c.name_ok = true) :
    ((lookupKey s.hash c.name).isSome →
      mysql_create_function s libs allow fl c = (some .ER_UDF_EXISTS, s)) ∧
    (∀ (name dl : String) (ret : Item_result) (ty : Item_udftype),
      lookupKey s.hash name = none →
      lookupKey (add_udf s name ret dl ty).2.hash name
          = some (add_udf s name ret dl ty).1 ∧
      getD (add_udf s name ret dl ty).2 (add_udf s name ret dl ty).1
        = { name := name, returns := ret, dl := dl, type := ty,
            usage_count := 1 }) := by
  constructor
  · intro hdup
    simp [mysql_create_function, hp, hn, hdup]
  · intro name dl ret ty habs
    constructor
    · show lookupKey (emplace s.hash name s.descs.length) name = _
      exact lookupKey_emplace_self s.descs.length habs
    · show (s.descs ++ [_]).getD s.descs.length default = _
      exact getD_append_self default s.descs _

/-- Concrete registry for the C9 witness: `f` is already registered. -/
def C9state : RegState :=
  { descs := [{ name := "f", dl := "L", dlhandle := some 0,
                usage_count := 1 }],
    hash := [("f", 0)], using_udf_functions := true,
    openHandles := [0], nextHandle := 1 }

/-- Witness for C9: creating `f` again fails with `ER_UDF_EXISTS` and
changes nothing, while inserting the fresh name `g` lands under key `g`
with `usage_count = 1`. -/
theorem C9_witness :
    (({ name := "f", dl := "L" } : CreateIn).path_ok = true ∧
     ({ name := "f", dl := "L" } : CreateIn).name_ok = true ∧
     (lookupKey C9state.hash "f").isSome ∧
     lookupKey C9state.hash "g" = none) ∧
    (mysql_create_function C9state [("L", ["f", "f_init"])] false {}
        { name := "f", dl := "L" } = (some .ER_UDF_EXISTS, C9state) ∧
     lookupKey (add_udf C9state "g" .INT_RESULT "L"
          .UDFTYPE_FUNCTION).2.hash "g"
        = some (add_udf C9state "g" .INT_RESULT "L" .UDFTYPE_FUNCTION).1 ∧
     getD (add_udf C9state "g" .INT_RESULT "L" .UDFTYPE_FUNCTION).2
          (add_udf C9state "g" .INT_RESULT "L" .UDFTYPE_FUNCTION).1
        = { name := "g", returns := .INT_RESULT, dl := "L",
            type := .UDFTYPE_FUNCTION, usage_count := 1 }) :=
  ⟨⟨by decide, by decide, by decide, by decide⟩,
   ⟨(C9_insert_semantics C9state [("L", ["f", "f_init"])] false {}
        { name := "f", dl := "L" } (by decide) (by decide)).1 (by decide),
    ((C9_insert_semantics C9state [("L", ["f", "f_init"])] false {}
        { name := "f", dl := "L" } (by decide) (by decide)).2
      "g" "L" .INT_RESULT .UDFTYPE_FUNCTION (by decide)).1,
    ((C9_insert_semantics C9state [("L", ["f", "f_init"])] false {}
        { name := "f", dl := "L" } (by decide) (by decide)).2
      "g" "L" .INT_RESULT .UDFTYPE_FUNCTION (by decide)).2⟩⟩

/-! ### Claim C10 -/

theorem keysNodup_append_singleton {h : List (String × Nat)} (k : String)
    (v : Nat) (hnd : (h.map Prod.fst).Nodup)
    (habs : lookupKey h k = none) :
    (((h ++ [(k, v)]).map Prod.fst)).Nodup := by
  have hk : k ∉ h.map Prod.fst := (lookupKey_eq_none_iff h k).mp habs
  rw [List.map_append, List.map_cons, List.map_nil, List.nodup_append]
  exact ⟨hnd, List.nodup_singleton k,
    by simp only [List.disjoint_singleton]; exact hk⟩

theorem find_udf_dl_none_iff (s : RegState) (dl0 : String) :
    find_udf_dl s dl0 = none ↔
      s.hash.find? (fun p =>
        (getD s p.2).dl == dl0 && (getD s p.2).dlhandle.isSome) = none := by
  constructor
  · intro hfd
    cases hq : s.hash.find? (fun p =>
        (getD s p.2).dl == dl0 && (getD s p.2).dlhandle.isSome) with
    | none => rfl
    | some q =>
      have hpq := List.find?_some hq
      simp only [Bool.and_eq_true] at hpq
      unfold find_udf_dl at hfd
      rw [hq] at hfd
      simp only at hfd
      rw [hfd] at hpq
      simp at hpq
  · intro hq
    unfold find_udf_dl
    rw [hq]

theorem find_udf_dl_add_none (s : RegState) (name dl2 dl0 : String)
    (ret : Item_result) (ty : Item_udftype)
    (hv : ∀ p ∈ s.hash, p.2 < s.descs.length)
    (hfd : find_udf_dl s dl0 = none)
    (habs : lookupKey s.hash name = none) :
    find_udf_dl (add_udf s name ret dl2 ty).2 dl0 = none := by
  have hfind := (find_udf_dl_none_iff s dl0).mp hfd
  have hall := List.find?_eq_none.mp hfind
  rw [find_udf_dl_none_iff]
  apply List.find?_eq_none.mpr
  intro p hp
  have hhash : (add_udf s name ret dl2 ty).2.hash
      = s.hash ++ [(name, s.descs.length)] := by
    simp [add_udf, emplace, habs]
  rw [hhash] at hp
  rw [List.mem_append] at hp
  rcases hp with hp | hp
  · have hlt := hv p hp
    have hg : getD (add_udf s name ret dl2 ty).2 p.2 = getD s p.2 := by
      show (s.descs ++ [_]).getD p.2 default = s.descs.getD p.2 default
      exact getD_append_lt default s.descs _ p.2 hlt
    rw [hg]
    exact hall p hp
  · simp only [List.mem_singleton] at hp
    subst hp
    have hg : getD (add_udf s name ret dl2 ty).2 s.descs.length
        = { name := name, returns := ret, dl := dl2, type := ty,
            usage_count := 1 } := by
      show (s.descs ++ [_]).getD s.descs.length default = _
      exact getD_append_self default s.descs _
    simp [hg]

end SqlUdf

namespace SqlUdf

theorem C10_failed_load_row (libs : List (String × List String))
    (allow : Bool) (s : RegState) (r : RowIn)
    (hnd : (s.hash.map Prod.fst).Nodup)
    (hv : ∀ p ∈ s.hash, p.2 < s.descs.length)
    (hp : r.path_ok = true) (hn : r.name_ok = true)
    (habs : lookupKey s.hash r.name = none)
    (hfd : find_udf_dl s r.dl = none)
    (hopen : libLookup libs r.dl = none) :
    lookupKey (udf_init_row libs allow s r).hash r.name
        = some s.descs.length ∧
    (getD (udf_init_row libs allow s r) s.descs.length).dlhandle = none ∧
    find_udf (udf_init_row libs allow s r) r.name true
      = (none, udf_init_row libs allow s r) ∧
    find_udf (udf_init_row libs allow s r) r.name false
      = (none, udf_init_row libs allow s r) ∧
    (mysql_drop_function (udf_init_row libs allow s r) {}
        { name := r.name }).1 = none ∧
    lookupKey (mysql_drop_function (udf_init_row libs allow s r) {}
        { name := r.name }).2.hash r.name = none ∧
    (mysql_drop_function (udf_init_row libs allow s r) {}
        { name := r.name }).2.closedLog
      = (udf_init_row libs allow s r).closedLog := by
  have hadd2 : (add_udf s r.name r.returns r.dl r.type).2 =
      { s with
        descs := s.descs ++
          [{ name := r.name, returns := r.returns, dl := r.dl,
             type := r.type, usage_count := 1 }],
        hash := s.hash ++ [(r.name, s.descs.length)],
        using_udf_functions := true } := by
    simp [add_udf, emplace, habs]
  have hid : (add_udf s r.name r.returns r.dl r.type).1
      = s.descs.length := rfl
  have hfd1 : find_udf_dl (add_udf s r.name r.returns r.dl r.type).2 r.dl
      = none :=
    find_udf_dl_add_none s r.name r.dl r.dl r.returns r.type hv hfd habs
  have hget1 : getD (add_udf s r.name r.returns r.dl r.type).2
      s.descs.length
      = { name := r.name, returns := r.returns, dl := r.dl,
          type := r.type, usage_count := 1 } := by
    show (s.descs ++ [_]).getD s.descs.length default = _
    exact getD_append_self default s.descs _
  have hrow : udf_init_row libs allow s r
      = (add_udf s r.name r.returns r.dl r.type).2 := by
    simp [udf_init_row, hp, hn, hid, hget1, hfd1, hopen]
  have hlook1 : lookupKey (add_udf s r.name r.returns r.dl r.type).2.hash
      r.name = some s.descs.length := by
    rw [hadd2]
    show lookupKey (s.hash ++ [(r.name, s.descs.length)]) r.name = _
    rw [lookupKey_append_of_none _ habs]
    simp [lookupKey]
  have hnd1 : ((add_udf s r.name r.returns r.dl r.type).2.hash.map
      Prod.fst).Nodup := by
    rw [hadd2]
    exact keysNodup_append_singleton r.name s.descs.length hnd habs
  have hdec1 : decUlong 1 = 0 := by decide
  have hdel : udf_hash_delete (add_udf s r.name r.returns r.dl r.type).2
      s.descs.length =
      { (add_udf s r.name r.returns r.dl r.type).2 with
        descs := (add_udf s r.name r.returns r.dl r.type).2.descs.set
          s.descs.length
          ({ name := r.name, returns := r.returns, dl := r.dl,
             type := r.type, usage_count := 0 }),
        hash := eraseKey (add_udf s r.name r.returns r.dl r.type).2.hash
          r.name,
        using_udf_functions :=
          !(eraseKey (add_udf s r.name r.returns r.dl r.type).2.hash
            r.name).isEmpty } := by
    simp only [udf_hash_delete, hget1, hlook1, hdec1]
    simp
  have hlen1 : s.descs.length
      < (add_udf s r.name r.returns r.dl r.type).2.descs.length := by
    rw [hadd2]
    simp
  have hget2 : getD (udf_hash_delete
      (add_udf s r.name r.returns r.dl r.type).2 s.descs.length)
      s.descs.length
      = { name := r.name, returns := r.returns, dl := r.dl,
          type := r.type, usage_count := 0 } := by
    rw [hdel]
    show ((add_udf s r.name r.returns r.dl r.type).2.descs.set
      s.descs.length _).getD s.descs.length default = _
    exact getD_set_self default _ s.descs.length _ hlen1
  have hend : udf_end_transaction (add_udf s r.name r.returns r.dl r.type).2
      {} false s.descs.length false
      = (false, none, udf_hash_delete
          (add_udf s r.name r.returns r.dl r.type).2 s.descs.length) := by
    simp [udf_end_transaction]
  have hdrop : mysql_drop_function
      (add_udf s r.name r.returns r.dl r.type).2 {} { name := r.name }
      = (none, udf_hash_delete (add_udf s r.name r.returns r.dl r.type).2
          s.descs.length) := by
    simp [mysql_drop_function, hlook1, hend, hget2]
  refine ⟨?_, ?_, ?_, ?_, ?_, ?_, ?_⟩
  · rw [hrow]
    exact hlook1
  · rw [hrow, hget1]
  · rw [hrow]
    simp [find_udf, hlook1, hget1]
  · rw [hrow]
    simp [find_udf, hlook1, hget1]
  · rw [hrow, hdrop]
  · rw [hrow, hdrop]
    show lookupKey (udf_hash_delete _ _).hash r.name = none
    rw [hdel]
    show lookupKey (eraseKey _ r.name) r.name = none
    exact lookupKey_eraseKey_self _ r.name hnd1
  · rw [hrow, hdrop, hdel]

/-- Witness for C10: the startup scan reads one row for `h` backed by
library `M` which is absent from disk. -/
theorem C10_witness :
    ((({} : RegState).hash.map Prod.fst).Nodup ∧
     (∀ p ∈ ({} : RegState).hash, p.2 < ({} : RegState).descs.length) ∧
     ({ name := "h", dl := "M" } : RowIn).path_ok = true ∧
     ({ name := "h", dl := "M" } : RowIn).name_ok = true ∧
     lookupKey ({} : RegState).hash "h" = none ∧
     find_udf_dl {} "M" = none ∧
     libLookup [] "M" = none) ∧
    (lookupKey (udf_init_row [] false {} { name := "h", dl := "M" }).hash "h"
        = some 0 ∧
     (getD (udf_init_row [] false {} { name := "h", dl := "M" }) 0).dlhandle
        = none ∧
     find_udf (udf_init_row [] false {} { name := "h", dl := "M" }) "h" true
        = (none, udf_init_row [] false {} { name := "h", dl := "M" }) ∧
     find_udf (udf_init_row [] false {} { name := "h", dl := "M" }) "h" false
        = (none, udf_init_row [] false {} { name := "h", dl := "M" }) ∧
     (mysql_drop_function (udf_init_row [] false {} { name := "h", dl := "M" })
        {} { name := "h" }).1 = none ∧
     lookupKey (mysql_drop_function
        (udf_init_row [] false {} { name := "h", dl := "M" })
        {} { name := "h" }).2.hash "h" = none ∧
     (mysql_drop_function (udf_init_row [] false {} { name := "h", dl := "M" })
        {} { name := "h" }).2.closedLog
       = (udf_init_row [] false {} { name := "h", dl := "M" }).closedLog) :=
  ⟨⟨by decide, by decide, by decide, by decide, by decide, by decide,
    by decide⟩,
   C10_failed_load_row [] false {} { name := "h", dl := "M" }
     (by decide) (by decide) (by decide) (by decide) (by decide) (by decide)
     (by decide)⟩

end SqlUdf
